import Mathlib

/-!
Shallow embedding of `tensorboard/notebook.py`: the launch reconciler
(`start`), the instance-selection and display logic (`_display`), the
listing command (`list`), and the human-readable formatting helpers
(`_time_delta_from_info`, `_data_source_from_info`).

Modelling conventions:
* Python `datetime` values are modelled as natural numbers of microseconds
  since an epoch; `replace(microsecond=0)` truncates to a whole second, and
  subtraction of two datetimes yields an integer number of microseconds
  (a `timedelta`), rendered by `timedeltaStr` exactly as Python's
  `timedelta.__str__`.
* `manager.get_all()` is modelled as a function `Nat → List TensorboardInfo`
  from call index to result, because `_display` calls it up to twice in one
  invocation (lines 239 and 243 of the source).
* Raised exceptions are modelled as `Except.error` carrying the rendered
  exception message.
* The IPython display handle is modelled as a `Bool` (present or not); what
  matters to the logic is only whether output goes to a fresh display or an
  in-place update.
-/

/-- One discovery record for a running TensorBoard server, as produced by the
external `manager`. `start_time` is in microseconds since an epoch. The
`db` and `logdir` fields are strings; Python truthiness of `info.db` is
modelled as `info.db ≠ ""`. -/
structure TensorboardInfo where
  port : Nat
  pid : Nat
  start_time : Nat
  db : String
  logdir : String
deriving DecidableEq, Repr

/-- The three environment classifications of `_get_context`. -/
inductive Context where
  | colab
  | ipython
  | none
deriving DecidableEq, Repr

/-- Zero-pad a rendered nonnegative integer to two digits, as Python
`"%02d"` does for the in-range minute and second fields. -/
def pad2 (n : Int) : String :=
  if 0 ≤ n ∧ n < 10 then "0" ++ toString n else toString n

/-- Python `str(timedelta)` on a delta of `us` microseconds: normalize to
days, seconds in `[0, 86400)` and microseconds in `[0, 1000000)` by floor
division, then render `"[D day(s), ]H:MM:SS[.ffffff]"`. -/
def timedeltaStr (us : Int) : String :=
  let days := us.ediv 86400000000
  let rem := us.emod 86400000000
  let secs := rem.ediv 1000000
  let micros := rem.emod 1000000
  let hh := secs.ediv 3600
  let mm := (secs.ediv 60).emod 60
  let ss := secs.emod 60
  let base := toString hh ++ ":" ++ pad2 mm ++ ":" ++ pad2 ss
  let withDays :=
    if days = 0 then base
    else
      toString days ++ " day" ++ (if days = 1 ∨ days = -1 then "" else "s") ++
        ", " ++ base
  if micros = 0 then withDays
  else withDays ++ "." ++ pad2 micros

/-- Python `datetime.replace(microsecond=0)` on a datetime measured in
microseconds: truncate to a whole second. -/
def replace_microsecond_0 (t : Nat) : Nat :=
  t / 1000000 * 1000000

/-- Line 180 of the source: format the elapsed time for the given
`TensorboardInfo` as `str(now.replace(microsecond=0) -
then.replace(microsecond=0))`. -/
def _time_delta_from_info (now : Nat) (info : TensorboardInfo) : String :=
  timedeltaStr
    ((replace_microsecond_0 now : Int) -
      (replace_microsecond_0 info.start_time : Int))

/-- Line 195 of the source: format the data location for the given
`TensorboardInfo` (`"db %s"` if `info.db` is truthy, else `"logdir %s"`). -/
def _data_source_from_info (info : TensorboardInfo) : String :=
  if info.db ≠ "" then "db " ++ info.db else "logdir " ++ info.logdir

/-- Python `str.strip()` whitespace test, over the ASCII whitespace
characters. -/
def isPySpace (c : Char) : Bool :=
  c == ' ' || c == '\t' || c == '\n' || c == '\x0d' || c == '\x0b' || c == '\x0c'

/-- Python `str.strip()`: drop leading and trailing whitespace. -/
def pyStrip (s : String) : String :=
  String.mk (((s.data.dropWhile isPySpace).reverse.dropWhile isPySpace).reverse)

/-- Decidable substring test: true when `sub` occurs contiguously in `s`. -/
def strContains (s sub : String) : Bool :=
  (List.range (s.data.length + 1)).any fun i =>
    decide ((s.data.drop i).take sub.data.length = sub.data)

/-- One user-visible rendering action, the result of the dispatch at line
270 of the source. -/
inductive RenderAction where
  | iframe (src : String) (height : Nat) (updated : Bool)
  | cliMessage (msg : String)
deriving DecidableEq, Repr

/-- Line 278 of the source: Colab rendering is unimplemented and raises
`NotImplementedError`. -/
def _display_colab (port height : Nat) (display_handle : Bool) :
    Except String RenderAction :=
  Except.error "NotImplementedError"

/-- Line 284 of the source: build an `IFrame` pointing at
`http://localhost:{port}` and either update the handle in place or
display it fresh. -/
def _display_ipython (port height : Nat) (display_handle : Bool) :
    Except String RenderAction :=
  Except.ok (RenderAction.iframe ("http://localhost:" ++ toString port)
    height display_handle)

/-- Line 297 of the source: print a navigable URL at the command line
(height and handle unused). -/
def _display_cli (port height : Nat) (display_handle : Bool) :
    Except String RenderAction :=
  Except.ok (RenderAction.cliMessage
    ("Please navigate to http://localhost:" ++ toString port ++
      " in a web browser."))

/-- The dispatch table at lines 270-275 of the source, keyed on the
environment context. -/
def renderDispatch (ctx : Context) (port height : Nat) (display_handle : Bool) :
    Except String RenderAction :=
  match ctx with
  | Context.colab => _display_colab port height display_handle
  | Context.ipython => _display_ipython port height display_handle
  | Context.none => _display_cli port height display_handle

/-- One step of Python `max(..., key=lambda x: x.start_time)`: keep the
accumulator unless the new element's key is strictly greater (so the first
maximal element wins ties, as Python `max` does). -/
def pystep (acc y : TensorboardInfo) : TensorboardInfo :=
  if acc.start_time < y.start_time then y else acc

/-- Python `max(infos, key=lambda x: x.start_time)`, returning `none` for the
empty list (where Python raises `ValueError`). -/
def pymax (l : List TensorboardInfo) : Option TensorboardInfo :=
  match l with
  | [] => none
  | x :: xs => some (xs.foldl pystep x)

/-- Python `height = 600 if height is None else height` (lines 235-236). -/
def defaultHeight (height : Option Nat) : Nat :=
  match height with
  | Option.none => 600
  | Option.some v => v

/-- The status message printed by `_display` when `print_message` is true and
an instance was selected (lines 255-263 of the source). -/
def selectionMessage (now : Nat) (info : TensorboardInfo) : String :=
  "Selecting TensorBoard with " ++ _data_source_from_info info ++
    " (started " ++ _time_delta_from_info now info ++ " ago; port " ++
    toString info.port ++ ", pid " ++ toString info.pid ++ ")."

/-- Lines 238-251 of the source: resolve the optional explicit port to a
selected instance (if any) and the port to render. With no explicit port,
`manager.get_all()` is called once for the emptiness guard (call index 0)
and a second time under `max` (call index 1); an empty first result raises
`ValueError`, and an empty second result would make Python's `max` raise. -/
def selectResult (getAll : Nat → List TensorboardInfo) (port : Option Nat) :
    Except String (Option TensorboardInfo × Nat) :=
  match port with
  | Option.none =>
    if (getAll 0).isEmpty then
      Except.error
        "ValueError: Can\x27t display TensorBoard: no known instances running."
    else
      match pymax (getAll 1) with
      | Option.none => Except.error "ValueError: max() arg is an empty sequence"
      | Option.some info => Except.ok (Option.some info, info.port)
  | Option.some p =>
    Except.ok (pymax ((getAll 0).filter (fun i => i.port == p)), p)

/-- The observable result of one successful `_display` invocation. -/
structure DisplayOut where
  selected : Option TensorboardInfo
  printed : List String
  render : RenderAction
deriving DecidableEq, Repr

/-- The common tail of `_display` (lines 253-275 of the source): the lines
printed for the selected record when `print_message` is set, and the
environment dispatch on the resolved port. -/
def finishDisplay (ctx : Context) (now : Nat) (info? : Option TensorboardInfo)
    (p hh : Nat) (print_message display_handle : Bool) :
    Except String DisplayOut :=
  match renderDispatch ctx p hh display_handle with
  | Except.error e => Except.error e
  | Except.ok r =>
    Except.ok
      { selected := info?,
        printed :=
          if print_message then
            match info? with
            | Option.some info => [selectionMessage now info]
            | Option.none => []
          else [],
        render := r }

/-- Lines 224-275 of the source: internal version of `display`. Resolve the
port and selected instance, optionally print the selection message, then
dispatch to the environment-specific renderer. -/
def _display (getAll : Nat → List TensorboardInfo) (ctx : Context) (now : Nat)
    (port : Option Nat) (height : Option Nat)
    (print_message display_handle : Bool) :
    Except String DisplayOut :=
  match selectResult getAll port with
  | Except.error e => Except.error e
  | Except.ok (info?, p) =>
    finishDisplay ctx now info? p (defaultHeight height)
      print_message display_handle

/-- The result of `manager.start`, as classified by the `isinstance` chain at
lines 122-177 of the source. `other` stands for any value that is none of
the four recognized classes, carried by its `repr`. -/
inductive StartResult where
  | launched (info : TensorboardInfo)
  | reused (info : TensorboardInfo)
  | failed (exit_code : Int) (stdout : Option String) (stderr : Option String)
  | timedOut (pid : Nat)
  | other (r : String)
deriving DecidableEq, Repr

/-- The observable result of one successful `start` invocation: the status
messages issued through `print_or_update` after the initial
"Launching TensorBoard..." line, and the display outcome if rendering was
attempted. -/
structure StartOut where
  messages : List String
  display : Option DisplayOut
deriving DecidableEq, Repr

/-- Lines 147-153 of the source: render one captured stream. The empty
string yields nothing, an unreadable (`None`) stream yields an explicit
note, and a non-empty stream is stripped and labelled. -/
def format_stream (name : String) (value : Option String) : String :=
  if value = Option.some "" then ""
  else
    match value with
    | Option.none => "\n<could not read " ++ name ++ ">"
    | Option.some v => "\nContents of " ++ name ++ ":\n" ++ pyStrip v

/-- The `StartReused` status message template at lines 130-138 of the
source. -/
def reusedMessage (now : Nat) (info : TensorboardInfo) : String :=
  "Reusing TensorBoard on port " ++ toString info.port ++ " (pid " ++
    toString info.pid ++ "), started " ++ _time_delta_from_info now info ++
    " ago. (Use \x27" ++ "!kill " ++ toString info.pid ++ "\x27 to kill it.)"

/-- The `StartFailed` error message at lines 154-161 of the source. -/
def failedMessage (exit_code : Int) (stdout stderr : Option String) : String :=
  "ERROR: Failed to launch TensorBoard (exited with " ++ toString exit_code ++
    ")." ++ format_stream "stderr" stderr ++ format_stream "stdout" stdout

/-- The `StartTimedOut` error message at lines 165-169 of the source. -/
def timedOutMessage (pid : Nat) : String :=
  "ERROR: Timed out waiting for TensorBoard to start. " ++
    "It may still be running as pid " ++ toString pid ++ "."

/-- Lines 89-177 of the source: launch (the result of `manager.start` is a
parameter) and react to the outcome. A display handle exists exactly when
the context is not `_CONTEXT_NONE`. -/
def contextHandle (ctx : Context) : Bool :=
  match ctx with
  | Context.none => false
  | _ => true

def start (start_result : StartResult) (getAll : Nat → List TensorboardInfo)
    (ctx : Context) (now : Nat) : Except String StartOut :=
  match start_result with
  | StartResult.launched info =>
    match _display getAll ctx now (Option.some info.port) Option.none
        false (contextHandle ctx) with
    | Except.error e => Except.error e
    | Except.ok d => Except.ok { messages := [], display := Option.some d }
  | StartResult.reused info =>
    match _display getAll ctx now (Option.some info.port) Option.none
        false false with
    | Except.error e => Except.error e
    | Except.ok d =>
      Except.ok { messages := [reusedMessage now info],
                  display := Option.some d }
  | StartResult.failed exit_code stdout stderr =>
    Except.ok { messages := [failedMessage exit_code stdout stderr],
                display := Option.none }
  | StartResult.timedOut pid =>
    Except.ok { messages := [timedOutMessage pid], display := Option.none }
  | StartResult.other r =>
    Except.error
      ("TypeError: Unexpected result from `manager.start`: " ++ r ++
        ".\nThis is a TensorBoard bug; please report it.")

/-- The per-instance line of the listing command (lines 320-326 of the
source). -/
def instanceLine (now : Nat) (info : TensorboardInfo) : String :=
  "  - port " ++ toString info.port ++ ": " ++ _data_source_from_info info ++
    " (started " ++ _time_delta_from_info now info ++ " ago; pid " ++
    toString info.pid ++ ")"

/-- Lines 304-326 of the source: print a listing of known running
instances. The result is the list of printed lines. -/
def list (infos : List TensorboardInfo) (now : Nat) : List String :=
  if infos.isEmpty then ["No known TensorBoard instances running."]
  else "Known TensorBoard instances:" :: infos.map (instanceLine now)

/-- A sample instance record with a logdir data source, used as a concrete
input by several witnesses. -/
def sampleLogdirInfo : TensorboardInfo :=
  { port := 6006, pid := 42, start_time := 0, db := "", logdir := "/tmp/logs" }

/-- A sample instance record with a database data source. -/
def sampleDbInfo : TensorboardInfo :=
  { port := 6007, pid := 43, start_time := 1000000, db := "conn-str",
    logdir := "" }

theorem pyfold_mem (xs : List TensorboardInfo) (x : TensorboardInfo) :
    xs.foldl pystep x ∈ x :: xs := by
  induction xs generalizing x with
  | nil => simp
  | cons y ys ih =>
    simp only [List.foldl_cons]
    have hstep : pystep x y = x ∨ pystep x y = y := by
      unfold pystep; split
      · exact Or.inr rfl
      · exact Or.inl rfl
    rcases List.mem_cons.mp (ih (pystep x y)) with h | h
    · rcases hstep with h2 | h2
      · rw [h, h2]; exact List.mem_cons_self _ _
      · rw [h, h2]
        exact List.mem_cons_of_mem _ (List.mem_cons_self _ _)
    · exact List.mem_cons_of_mem _ (List.mem_cons_of_mem _ h)

theorem pyfold_ge (xs : List TensorboardInfo) (x : TensorboardInfo) :
    ∀ y ∈ x :: xs, y.start_time ≤ (xs.foldl pystep x).start_time := by
  induction xs generalizing x with
  | nil =>
    intro y hy
    rw [List.mem_singleton] at hy
    exact hy ▸ Nat.le_refl _
  | cons z zs ih =>
    intro y hy
    simp only [List.foldl_cons]
    have hx : x.start_time ≤ (pystep x z).start_time := by
      unfold pystep; split
      · omega
      · exact Nat.le_refl _
    have hz : z.start_time ≤ (pystep x z).start_time := by
      unfold pystep; split
      · exact Nat.le_refl _
      · omega
    have hacc := ih (pystep x z)
    rcases List.mem_cons.mp hy with rfl | hy2
    · exact le_trans hx (hacc _ (List.mem_cons_self _ _))
    · rcases List.mem_cons.mp hy2 with rfl | hy3
      · exact le_trans hz (hacc _ (List.mem_cons_self _ _))
      · exact hacc _ (List.mem_cons_of_mem _ hy3)

/-- On a non-empty list, `pymax` returns some element of the list whose
`start_time` is maximal. -/
theorem pymax_spec (l : List TensorboardInfo) (h : l ≠ []) :
    ∃ m, pymax l = Option.some m ∧ m ∈ l ∧
      ∀ x ∈ l, x.start_time ≤ m.start_time := by
  match l with
  | [] => exact absurd rfl h
  | x :: xs => exact ⟨_, rfl, pyfold_mem xs x, pyfold_ge xs x⟩

/-- A string visibly decomposed as `x ++ sub ++ y` contains `sub`. -/
theorem strContains_of_decomp (s sub : String) (x y : List Char)
    (h : s.data = x ++ sub.data ++ y) : strContains s sub = true := by
  unfold strContains
  refine List.any_eq_true.mpr ⟨x.length, List.mem_range.mpr ?_, ?_⟩
  · rw [h]
    simp only [List.length_append]
    omega
  · rw [h, List.append_assoc, List.drop_left, List.take_left]
    exact decide_eq_true rfl

/-- Every context other than Colab renders successfully. -/
theorem renderDispatch_ok (ctx : Context) (hc : ctx ≠ Context.colab)
    (p h : Nat) (dh : Bool) :
    ∃ r, renderDispatch ctx p h dh = Except.ok r := by
  cases ctx with
  | colab => exact absurd rfl hc
  | ipython => exact ⟨_, rfl⟩
  | none => exact ⟨_, rfl⟩

/-- C4: with zero known instances, a port-less `_display` fails with the
"no known instances" `ValueError`, while `list` prints exactly the one
"no known instances" message (no per-instance lines) and returns. -/
theorem C4_no_instances :
    (∀ (getAll : Nat → List TensorboardInfo) (ctx : Context) (now : Nat)
       (height : Option Nat) (pm dh : Bool),
       getAll 0 = [] →
       _display getAll ctx now Option.none height pm dh =
         Except.error
           "ValueError: Can\x27t display TensorBoard: no known instances running.") ∧
    (∀ now : Nat, list [] now = ["No known TensorBoard instances running."]) := by
  constructor
  · intro getAll ctx now height pm dh h
    unfold _display selectResult
    rw [h]
    rfl
  · intro now
    rfl

/-- C4 witness: the theorem applied at a concrete empty instance set. -/
theorem C4_no_instances_witness :
    _display (fun _ => []) Context.ipython 0 Option.none Option.none
        true true =
      Except.error
        "ValueError: Can\x27t display TensorBoard: no known instances running." ∧
    list [] 0 = ["No known TensorBoard instances running."] :=
  ⟨C4_no_instances.1 (fun _ => []) Context.ipython 0 Option.none true true rfl,
   C4_no_instances.2 0⟩

/-- C6: an unrecognized `manager.start` result makes `start` fail with a
`TypeError` whose message identifies the situation as a TensorBoard bug;
it is never coerced into a successful no-op. -/
theorem C6_unexpected_result (r : String)
    (getAll : Nat → List TensorboardInfo) (ctx : Context) (now : Nat) :
    ∃ e, start (StartResult.other r) getAll ctx now = Except.error e ∧
      strContains e "This is a TensorBoard bug; please report it." = true := by
  refine ⟨_, rfl, ?_⟩
  refine strContains_of_decomp _ _
    ("TypeError: Unexpected result from `manager.start`: " ++ r ++
      ".\n").data [] ?_
  simp [String.data_append, List.append_assoc]

/-- C9: in the Colab context, rendering dispatch raises
`NotImplementedError` for every port, height and handle; it never
produces a URL message or an embedded frame. -/
theorem C9_colab_unimplemented (port height : Nat) (dh : Bool) :
    renderDispatch Context.colab port height dh =
      Except.error "NotImplementedError" :=
  rfl

/-- C8: data-source formatting yields `"db " ++ connection-string` when the
database field is present (non-empty), else `"logdir " ++ path`. -/
theorem C8_data_source (info : TensorboardInfo) :
    (info.db ≠ "" → _data_source_from_info info = "db " ++ info.db) ∧
    (info.db = "" →
      _data_source_from_info info = "logdir " ++ info.logdir) := by
  constructor
  · intro h
    unfold _data_source_from_info
    rw [if_pos h]
  · intro h
    unfold _data_source_from_info
    rw [if_neg (by simp [h])]

/-- C8 witness: the two concrete examples from the spec. -/
theorem C8_data_source_witness :
    _data_source_from_info sampleLogdirInfo = "logdir /tmp/logs" ∧
    _data_source_from_info sampleDbInfo = "db conn-str" :=
  ⟨(C8_data_source sampleLogdirInfo).2 rfl,
   (C8_data_source sampleDbInfo).1 (by decide)⟩

/-- C7: elapsed-time formatting truncates both operands to whole seconds
before subtracting, and an instance started exactly 2 days, 48 minutes and
58 seconds ago (all sub-second parts zero) renders as "2 days, 0:48:58". -/
theorem C7_time_delta :
    (∀ (now : Nat) (info : TensorboardInfo),
      _time_delta_from_info now info =
        timedeltaStr ((replace_microsecond_0 now : Int) -
          (replace_microsecond_0 info.start_time : Int))) ∧
    (∀ (now port pid : Nat) (db logdir : String),
      now % 1000000 = 0 → 175738000000 ≤ now →
      _time_delta_from_info now
          { port := port, pid := pid, start_time := now - 175738000000,
            db := db, logdir := logdir } =
        "2 days, 0:48:58") := by
  constructor
  · intro now info
    rfl
  · intro now port pid db logdir h1 h2
    have hd : (1000000 : Nat) ∣ now := Nat.dvd_of_mod_eq_zero h1
    have hd2 : (1000000 : Nat) ∣ now - 175738000000 :=
      Nat.dvd_sub' hd (by norm_num)
    unfold _time_delta_from_info replace_microsecond_0
    simp only
    rw [Nat.div_mul_cancel hd, Nat.div_mul_cancel hd2]
    have e3 : ((now - 175738000000 : Nat) : Int) = (now : Int) - 175738000000 := by
      omega
    rw [e3]
    have e4 : (now : Int) - ((now : Int) - 175738000000) = 175738000000 := by
      ring
    rw [e4]
    decide

/-- C7 witness: the theorem applied at a concrete whole-second `now`. -/
theorem C7_time_delta_witness :
    _time_delta_from_info 175738000000
        { port := 6006, pid := 42, start_time := 175738000000 - 175738000000,
          db := "", logdir := "/tmp/logs" } =
      "2 days, 0:48:58" :=
  C7_time_delta.2 175738000000 6006 42 "" "/tmp/logs" (by norm_num)
    (by norm_num)

/-- C5: a `Failed` outcome produces a single error message carrying the
exit code, streams are rendered only when non-empty with an explicit
"could not read" note when unavailable, and neither `Failed` nor
`TimedOut` (whose message names the pid) performs any rendering call. -/
theorem C5_failed_timedout :
    (∀ (ec : Int) (stdout stderr : Option String)
       (getAll : Nat → List TensorboardInfo) (ctx : Context) (now : Nat),
       start (StartResult.failed ec stdout stderr) getAll ctx now =
         Except.ok { messages := [failedMessage ec stdout stderr],
                     display := Option.none }) ∧
    (∀ (ec : Int) (stdout stderr : Option String),
       strContains (failedMessage ec stdout stderr) (toString ec) = true) ∧
    (∀ n : String, format_stream n (Option.some "") = "") ∧
    (∀ n : String,
       format_stream n Option.none = "\n<could not read " ++ n ++ ">") ∧
    (∀ (n v : String), v ≠ "" →
       format_stream n (Option.some v) =
         "\nContents of " ++ n ++ ":\n" ++ pyStrip v) ∧
    (∀ (pid : Nat) (getAll : Nat → List TensorboardInfo) (ctx : Context)
       (now : Nat),
       start (StartResult.timedOut pid) getAll ctx now =
         Except.ok { messages := [timedOutMessage pid],
                     display := Option.none } ∧
       strContains (timedOutMessage pid) (toString pid) = true) := by
  refine ⟨fun ec stdout stderr getAll ctx now => rfl, ?_, fun n => rfl, ?_, ?_, ?_⟩
  · intro ec stdout stderr
    refine strContains_of_decomp _ _
      "ERROR: Failed to launch TensorBoard (exited with ".data
      ((")." : String) ++ format_stream "stderr" stderr ++
        format_stream "stdout" stdout).data ?_
    simp [failedMessage, String.data_append, List.append_assoc]
  · intro n
    rfl
  · intro n v h
    unfold format_stream
    rw [if_neg (by simp [h])]
  · intro pid getAll ctx now
    refine ⟨rfl, ?_⟩
    refine strContains_of_decomp _ _
      (("ERROR: Timed out waiting for TensorBoard to start. " ++
        "It may still be running as pid " : String)).data
      ("." : String).data ?_
    simp [timedOutMessage, String.data_append, List.append_assoc]

/-- C5 witness: the theorem applied at concrete outcomes and streams. -/
theorem C5_failed_timedout_witness :
    start (StartResult.failed 1 (Option.some "") Option.none)
        (fun _ => []) Context.none 0 =
      Except.ok { messages := [failedMessage 1 (Option.some "") Option.none],
                  display := Option.none } ∧
    format_stream "stdout" (Option.some " out text ") =
      "\nContents of " ++ "stdout" ++ ":\n" ++ pyStrip " out text " :=
  ⟨C5_failed_timedout.1 1 (Option.some "") Option.none (fun _ => [])
     Context.none 0,
   C5_failed_timedout.2.2.2.2.1 "stdout" " out text " (by decide)⟩

/-- Computation of `_display` with an explicit port: selection filters the
first discovery call by port, the explicit port itself is rendered, and the
message is printed only when requested and a record matched. -/
theorem display_explicit_eq (getAll : Nat → List TensorboardInfo)
    (ctx : Context) (now p : Nat) (height : Option Nat) (pm dh : Bool)
    (r : RenderAction)
    (hr : renderDispatch ctx p (defaultHeight height) dh = Except.ok r) :
    _display getAll ctx now (Option.some p) height pm dh =
      Except.ok
        { selected := pymax ((getAll 0).filter (fun i => i.port == p)),
          printed :=
            if pm then
              match pymax ((getAll 0).filter (fun i => i.port == p)) with
              | Option.some info => [selectionMessage now info]
              | Option.none => []
            else [],
          render := r } := by
  show finishDisplay ctx now (pymax ((getAll 0).filter (fun i => i.port == p)))
      p (defaultHeight height) pm dh = _
  unfold finishDisplay
  rw [hr]

/-- Computation of `_display` with no explicit port, given that the first
discovery call is non-empty and the second has maximum `m`. -/
theorem display_noport_eq (getAll : Nat → List TensorboardInfo)
    (ctx : Context) (now : Nat) (height : Option Nat) (pm dh : Bool)
    (hne : getAll 0 ≠ []) (m : TensorboardInfo)
    (hm : pymax (getAll 1) = Option.some m) (r : RenderAction)
    (hr : renderDispatch ctx m.port (defaultHeight height) dh = Except.ok r) :
    _display getAll ctx now Option.none height pm dh =
      Except.ok { selected := Option.some m,
                  printed := if pm then [selectionMessage now m] else [],
                  render := r } := by
  have he : (getAll 0).isEmpty = false := by
    cases h0 : getAll 0 with
    | nil => exact absurd h0 hne
    | cons a as => rfl
  have hsel : selectResult getAll Option.none =
      Except.ok (Option.some m, m.port) := by
    unfold selectResult
    rw [he, hm]
    simp
  unfold _display
  rw [hsel]
  show finishDisplay ctx now (Option.some m) m.port (defaultHeight height)
      pm dh = _
  unfold finishDisplay
  rw [hr]

/-- C1 (amended): for every `Reused` outcome, `start` emits a single status
line containing the elapsed time since start, the port, the pid, and a
kill-by-pid hint — but not the data-source description — and then renders
the instance. -/
theorem C1_reused_reaction (info : TensorboardInfo)
    (getAll : Nat → List TensorboardInfo) (ctx : Context)
    (hc : ctx ≠ Context.colab) (now : Nat) :
    ∃ d, start (StartResult.reused info) getAll ctx now =
        Except.ok { messages := [reusedMessage now info],
                    display := Option.some d } ∧
      strContains (reusedMessage now info) (toString info.port) = true ∧
      strContains (reusedMessage now info) (toString info.pid) = true ∧
      strContains (reusedMessage now info)
        (_time_delta_from_info now info) = true ∧
      strContains (reusedMessage now info)
        ("!kill " ++ toString info.pid ++ "\x27 to kill it.)") = true := by
  obtain ⟨r, hr⟩ :=
    renderDispatch_ok ctx hc info.port (defaultHeight Option.none) false
  have hd := display_explicit_eq getAll ctx now info.port Option.none
    false false r hr
  have hs : start (StartResult.reused info) getAll ctx now =
      match _display getAll ctx now (Option.some info.port) Option.none
          false false with
      | Except.error e => Except.error e
      | Except.ok d =>
        Except.ok { messages := [reusedMessage now info],
                    display := Option.some d } := rfl
  refine ⟨{ selected :=
              pymax ((getAll 0).filter (fun i => i.port == info.port)),
            printed := [], render := r }, ?_, ?_, ?_, ?_, ?_⟩
  · rw [hs, hd]
    rfl
  · refine strContains_of_decomp _ _ "Reusing TensorBoard on port ".data
      ((" (pid " ++ toString info.pid ++ "), started " ++
        _time_delta_from_info now info ++ " ago. (Use \x27" ++ "!kill " ++
        toString info.pid ++ "\x27 to kill it.)" : String)).data ?_
    simp [reusedMessage, String.data_append, List.append_assoc]
  · refine strContains_of_decomp _ _
      (("Reusing TensorBoard on port " ++ toString info.port ++
        " (pid " : String)).data
      (("), started " ++ _time_delta_from_info now info ++
        " ago. (Use \x27" ++ "!kill " ++ toString info.pid ++
        "\x27 to kill it.)" : String)).data ?_
    simp [reusedMessage, String.data_append, List.append_assoc]
  · refine strContains_of_decomp _ _
      (("Reusing TensorBoard on port " ++ toString info.port ++ " (pid " ++
        toString info.pid ++ "), started " : String)).data
      ((" ago. (Use \x27" ++ "!kill " ++ toString info.pid ++
        "\x27 to kill it.)" : String)).data ?_
    simp [reusedMessage, String.data_append, List.append_assoc]
  · refine strContains_of_decomp _ _
      (("Reusing TensorBoard on port " ++ toString info.port ++ " (pid " ++
        toString info.pid ++ "), started " ++
        _time_delta_from_info now info ++ " ago. (Use \x27" : String)).data
      [] ?_
    simp [reusedMessage, String.data_append, List.append_assoc]

/-- C1 witness: the amended theorem applied at a concrete reused
instance. -/
theorem C1_reused_reaction_witness :
    ∃ d, start (StartResult.reused sampleDbInfo) (fun _ => [sampleDbInfo])
        Context.ipython 0 =
        Except.ok { messages := [reusedMessage 0 sampleDbInfo],
                    display := Option.some d } ∧
      strContains (reusedMessage 0 sampleDbInfo)
        (toString sampleDbInfo.port) = true ∧
      strContains (reusedMessage 0 sampleDbInfo)
        (toString sampleDbInfo.pid) = true ∧
      strContains (reusedMessage 0 sampleDbInfo)
        (_time_delta_from_info 0 sampleDbInfo) = true ∧
      strContains (reusedMessage 0 sampleDbInfo)
        ("!kill " ++ toString sampleDbInfo.pid ++ "\x27 to kill it.)") =
        true :=
  C1_reused_reaction sampleDbInfo (fun _ => [sampleDbInfo]) Context.ipython
    (by decide) 0

/-- C1 counterexample: at a concrete reused instance with a logdir data
source, the emitted status line does not contain the data-source
description, contradicting the claim as stated. -/
theorem C1_reused_counterexample :
    ∃ out, start (StartResult.reused sampleLogdirInfo)
        (fun _ => [sampleLogdirInfo]) Context.none 0 = Except.ok out ∧
      out.messages = [reusedMessage 0 sampleLogdirInfo] ∧
      strContains (reusedMessage 0 sampleLogdirInfo)
        (_data_source_from_info sampleLogdirInfo) = false :=
  ⟨_, rfl, rfl, by decide⟩

/-- C2: selection returns a record of maximal `start_time`: with no explicit
port among all discovered instances, with an explicit port among the
records matching it. -/
theorem C2_selects_max :
    (∀ (getAll : Nat → List TensorboardInfo)
       (infos : List TensorboardInfo),
       (∀ n, getAll n = infos) → infos ≠ [] →
       ∀ ctx : Context, ctx ≠ Context.colab →
       ∀ (now : Nat) (height : Option Nat) (pm dh : Bool),
       ∃ out info,
         _display getAll ctx now Option.none height pm dh = Except.ok out ∧
         out.selected = Option.some info ∧ info ∈ infos ∧
         ∀ j ∈ infos, j.start_time ≤ info.start_time) ∧
    (∀ (getAll : Nat → List TensorboardInfo) (p : Nat),
       (getAll 0).filter (fun i => i.port == p) ≠ [] →
       ∀ ctx : Context, ctx ≠ Context.colab →
       ∀ (now : Nat) (height : Option Nat) (pm dh : Bool),
       ∃ out info,
         _display getAll ctx now (Option.some p) height pm dh =
           Except.ok out ∧
         out.selected = Option.some info ∧
         info ∈ (getAll 0).filter (fun i => i.port == p) ∧
         ∀ j ∈ (getAll 0).filter (fun i => i.port == p),
           j.start_time ≤ info.start_time) := by
  constructor
  · intro getAll infos hg hne ctx hc now height pm dh
    have h1 : getAll 1 ≠ [] := by rw [hg]; exact hne
    obtain ⟨m, hm, hmem, hmax⟩ := pymax_spec (getAll 1) h1
    obtain ⟨r, hr⟩ := renderDispatch_ok ctx hc m.port (defaultHeight height) dh
    have h0 : getAll 0 ≠ [] := by rw [hg]; exact hne
    have hd := display_noport_eq getAll ctx now height pm dh h0 m hm r hr
    refine ⟨_, m, hd, rfl, ?_, ?_⟩
    · rw [← hg 1]; exact hmem
    · intro j hj
      exact hmax j (by rw [hg]; exact hj)
  · intro getAll p hne ctx hc now height pm dh
    obtain ⟨m, hm, hmem, hmax⟩ := pymax_spec _ hne
    obtain ⟨r, hr⟩ := renderDispatch_ok ctx hc p (defaultHeight height) dh
    have hd := display_explicit_eq getAll ctx now p height pm dh r hr
    refine ⟨_, m, hd, ?_, hmem, hmax⟩
    exact hm

/-- C2 witness: the theorem applied at a concrete two-instance set, both
without and with an explicit port. -/
theorem C2_selects_max_witness :
    (∃ out info,
       _display (fun _ => [sampleLogdirInfo, sampleDbInfo]) Context.none 0
           Option.none Option.none false false = Except.ok out ∧
       out.selected = Option.some info ∧
       info ∈ [sampleLogdirInfo, sampleDbInfo] ∧
       ∀ j ∈ [sampleLogdirInfo, sampleDbInfo],
         j.start_time ≤ info.start_time) ∧
    (∃ out info,
       _display (fun _ => [sampleLogdirInfo, sampleDbInfo]) Context.none 0
           (Option.some 6007) Option.none false false = Except.ok out ∧
       out.selected = Option.some info ∧
       info ∈ ([sampleLogdirInfo, sampleDbInfo].filter
         (fun i => i.port == 6007)) ∧
       ∀ j ∈ ([sampleLogdirInfo, sampleDbInfo].filter
         (fun i => i.port == 6007)), j.start_time ≤ info.start_time) :=
  ⟨C2_selects_max.1 (fun _ => [sampleLogdirInfo, sampleDbInfo])
     [sampleLogdirInfo, sampleDbInfo] (fun n => rfl) (by decide)
     Context.none (by decide) 0 Option.none false false,
   C2_selects_max.2 (fun _ => [sampleLogdirInfo, sampleDbInfo]) 6007
     (by decide) Context.none (by decide) 0 Option.none false false⟩

/-- C3: with an explicit port matching zero discovered records, `_display`
selects nothing, raises nothing, prints no metadata, and still dispatches
rendering against the given port with the given or default height. -/
theorem C3_explicit_port_no_match (getAll : Nat → List TensorboardInfo)
    (p : Nat) (hmatch : (getAll 0).filter (fun i => i.port == p) = [])
    (ctx : Context) (hc : ctx ≠ Context.colab) (now : Nat)
    (height : Option Nat) (pm dh : Bool) :
    ∃ r, renderDispatch ctx p (defaultHeight height) dh = Except.ok r ∧
      _display getAll ctx now (Option.some p) height pm dh =
        Except.ok { selected := Option.none, printed := [], render := r } := by
  obtain ⟨r, hr⟩ := renderDispatch_ok ctx hc p (defaultHeight height) dh
  have hd := display_explicit_eq getAll ctx now p height pm dh r hr
  rw [hmatch] at hd
  refine ⟨r, hr, ?_⟩
  rw [hd]
  simp [pymax]

/-- C3 witness: the theorem applied at a concrete non-matching port. -/
theorem C3_explicit_port_no_match_witness :
    ∃ r, renderDispatch Context.ipython 6006 (defaultHeight Option.none)
        false = Except.ok r ∧
      _display (fun _ => [sampleDbInfo]) Context.ipython 0
          (Option.some 6006) Option.none true false =
        Except.ok { selected := Option.none, printed := [], render := r } :=
  C3_explicit_port_no_match (fun _ => [sampleDbInfo]) 6006 (by decide)
    Context.ipython (by decide) 0 Option.none true false

/-- C10: `_display` consults the discovery query twice on the port-less
path; when both calls return the same sequence and it is non-empty, the
unguarded maximum over the second call succeeds and the selected instance
belongs to the sequence that was checked for emptiness. -/
theorem C10_double_discovery (getAll : Nat → List TensorboardInfo)
    (hsame : getAll 1 = getAll 0) (hne : getAll 0 ≠ [])
    (ctx : Context) (hc : ctx ≠ Context.colab) (now : Nat)
    (height : Option Nat) (pm dh : Bool) :
    ∃ info out, pymax (getAll 1) = Option.some info ∧ info ∈ getAll 0 ∧
      _display getAll ctx now Option.none height pm dh = Except.ok out ∧
      out.selected = Option.some info := by
  have h1 : getAll 1 ≠ [] := by rw [hsame]; exact hne
  obtain ⟨m, hm, hmem, hmax⟩ := pymax_spec (getAll 1) h1
  obtain ⟨r, hr⟩ := renderDispatch_ok ctx hc m.port (defaultHeight height) dh
  have hd := display_noport_eq getAll ctx now height pm dh hne m hm r hr
  exact ⟨m, _, hm, hsame ▸ hmem, hd, rfl⟩

/-- C10 witness: the theorem applied at a concrete constant discovery
function. -/
theorem C10_double_discovery_witness :
    ∃ info out,
      pymax ((fun _ => [sampleLogdirInfo, sampleDbInfo]) 1) =
        Option.some info ∧
      info ∈ (fun _ : Nat => [sampleLogdirInfo, sampleDbInfo]) 0 ∧
      _display (fun _ => [sampleLogdirInfo, sampleDbInfo]) Context.none 0
          Option.none Option.none false false = Except.ok out ∧
      out.selected = Option.some info :=
  C10_double_discovery (fun _ => [sampleLogdirInfo, sampleDbInfo]) rfl
    (by decide) Context.none (by decide) 0 Option.none false false

example : _data_source_from_info ⟨6006, 1, 0, "", "/tmp/logs"⟩ = "logdir /tmp/logs" := by decide
example : _data_source_from_info ⟨6006, 1, 0, "conn-str", ""⟩ = "db conn-str" := by decide
example : timedeltaStr 175738000000 = "2 days, 0:48:58" := by decide
example : timedeltaStr 58000000 = "0:00:58" := by decide
example : strContains "hello world" "lo wo" = true := by decide
example : strContains "hello world" "low" = false := by decide
example : pyStrip "  a b \n" = "a b" := by decide
